import Mathlib

/-!
Verification of the startup wiring of the prometheus-es-adapter process
(cmd/adapter/main.go): configuration option routing, fatal-startup error
handling, construction of the elasticsearch services, and the shutdown
sequence.  The source is embedded shallowly: each fallible external call
(aws signing client, elastic client, index template, index service, write
service) is an oracle outcome in an `Ext` record, and `runMain` replays
the straight-line body of `main` against those outcomes, recording the
calls it performs, the service configurations it builds, and whether it
reaches the listener on :8000 or aborts with log.Fatal.
-/

namespace PromEsAdapter

/-- The configuration surface of `main`: one field per flag declared in
cmd/adapter/main.go lines 30-49, with the same types (Go int, int64,
string, bool become Int, Int, String, Bool). -/
structure Config where
  url : String
  workers : Int
  batchMaxAge : Int
  batchMaxDocs : Int
  batchMaxSize : Int
  indexAlias : String
  indexDaily : Bool
  indexShards : Int
  indexReplicas : Int
  indexMaxAge : String
  indexMaxDocs : Int
  indexMaxSize : String
  searchMaxDocs : Int
  sniffEnabled : Bool
  statsEnabled : Bool
  debug : Bool
deriving DecidableEq, Repr

/-- The default flag values of cmd/adapter/main.go lines 31-48. -/
def defaultConfig : Config :=
  { url := "http://localhost:9200"
  , workers := 1
  , batchMaxAge := 10
  , batchMaxDocs := 1000
  , batchMaxSize := 4096
  , indexAlias := "prom-metrics"
  , indexDaily := false
  , indexShards := 5
  , indexReplicas := 1
  , indexMaxAge := "7d"
  , indexMaxDocs := 1000000
  , indexMaxSize := ""
  , searchMaxDocs := 1000
  , sniffEnabled := false
  , statsEnabled := true
  , debug := false }

/-- Outcomes of the fallible external calls made by `main`, as an oracle:
`none` means the call returns without error, `some e` means it returns the
error message `e`. -/
structure Ext where
  awsClientErr : Option String
  elasticClientErr : Option String
  ensureTemplateErr : Option String
  newIndexServiceErr : Option String
  newWriteServiceErr : Option String
deriving DecidableEq, Repr

/-- The options `main` passes to elastic.NewClient (main.go lines 66-71):
SetURL(*url), SetScheme("https"), SetHttpClient(awsClient),
SetSniff(*sniffEnabled). -/
structure ClientOptions where
  url : String
  scheme : String
  sniff : Bool
deriving DecidableEq, Repr

/-- The elasticsearch.IndexTemplateConfig literal of main.go lines 77-81. -/
structure IndexTemplateConfig where
  aliasName : String
  shards : Int
  replicas : Int
deriving DecidableEq, Repr

/-- The elasticsearch.IndexConfig literal of main.go lines 87-92 (the
rollover policy carried by NewIndexService). -/
structure IndexConfig where
  aliasName : String
  maxAge : String
  maxDocs : Int
  maxSize : String
deriving DecidableEq, Repr

/-- The elasticsearch.ReadConfig literal of main.go lines 98-101. -/
structure ReadConfig where
  aliasName : String
  maxDocs : Int
deriving DecidableEq, Repr

/-- The elasticsearch.WriteConfig literal of main.go lines 104-112. -/
structure WriteConfig where
  aliasName : String
  daily : Bool
  maxAge : Int
  maxDocs : Int
  maxSize : Int
  workers : Int
  stats : Bool
deriving DecidableEq, Repr

/-- The externally visible calls `main` performs, in program order. -/
inductive Call where
  | awsNew
  | elasticNew
  | ensureTemplate
  | newIndexService
  | newReadService
  | newWriteService
  | adminListen
  | serve
  | writeClose
  | clientStop
deriving DecidableEq, Repr

/-- How a run of `main` ends: either a log.Fatal abort with its message
(log.Fatal exits the process, skipping deferred calls), or a complete run
that served on :8000 and returned after graceful termination. -/
inductive Outcome where
  | fatal (msg : String)
  | served
deriving DecidableEq, Repr

/-- Everything a run of `main` produced: its outcome, the external calls
it performed in order, and the configuration records it constructed for
each component (none when the run aborted before reaching it). -/
structure RunResult where
  outcome : Outcome
  calls : List Call
  clientOpts : Option ClientOptions
  templateCfg : Option IndexTemplateConfig
  indexCfg : Option IndexConfig
  readCfg : Option ReadConfig
  writeCfg : Option WriteConfig
deriving DecidableEq, Repr

/-- The client options built at main.go lines 66-71: the scheme is the
literal "https" regardless of configuration. -/
def mkClientOptions (cfg : Config) : ClientOptions :=
  { url := cfg.url, scheme := "https", sniff := cfg.sniffEnabled }

/-- The IndexTemplateConfig built at main.go lines 77-81. -/
def mkTemplateCfg (cfg : Config) : IndexTemplateConfig :=
  { aliasName := cfg.indexAlias, shards := cfg.indexShards, replicas := cfg.indexReplicas }

/-- The IndexConfig built at main.go lines 87-92. -/
def mkIndexCfg (cfg : Config) : IndexConfig :=
  { aliasName := cfg.indexAlias, maxAge := cfg.indexMaxAge
  , maxDocs := cfg.indexMaxDocs, maxSize := cfg.indexMaxSize }

/-- The ReadConfig built at main.go lines 98-101. -/
def mkReadCfg (cfg : Config) : ReadConfig :=
  { aliasName := cfg.indexAlias, maxDocs := cfg.searchMaxDocs }

/-- The WriteConfig built at main.go lines 104-112. -/
def mkWriteCfg (cfg : Config) : WriteConfig :=
  { aliasName := cfg.indexAlias, daily := cfg.indexDaily
  , maxAge := cfg.batchMaxAge, maxDocs := cfg.batchMaxDocs
  , maxSize := cfg.batchMaxSize, workers := cfg.workers
  , stats := cfg.statsEnabled }

/-- Shallow embedding of the body of `main` (main.go lines 29-131) against
the external-call oracle `ext`.  Mirrors the source statement by
statement: the empty-url check; aws_signing_client.New, whose error is
bound to err but immediately overwritten by the elastic.NewClient binding
and never inspected; elastic.NewClient with a fatal on error;
EnsureIndexTemplate with a fatal on error; NewIndexService only when
indexDaily is false, with a fatal on error; NewReadService (infallible);
NewWriteService with a fatal on error; the admin listener goroutine on
:9000; graceful.ListenAndServe on :8000; and, after graceful termination,
the deferred writeSvc.Close and client.Stop before main returns.
log.Fatal calls os.Exit, so no deferred call runs on a fatal path. -/
def runMain (cfg : Config) (ext : Ext) : RunResult :=
  if cfg.url = "" then
    { outcome := .fatal "missing url", calls := []
    , clientOpts := none, templateCfg := none, indexCfg := none
    , readCfg := none, writeCfg := none }
  else
    let opts := mkClientOptions cfg
    match ext.elasticClientErr with
    | some _ =>
      { outcome := .fatal "Failed to create elastic client"
      , calls := [.awsNew, .elasticNew]
      , clientOpts := some opts, templateCfg := none, indexCfg := none
      , readCfg := none, writeCfg := none }
    | none =>
      let tcfg := mkTemplateCfg cfg
      match ext.ensureTemplateErr with
      | some _ =>
        { outcome := .fatal "Failed to create index template"
        , calls := [.awsNew, .elasticNew, .ensureTemplate]
        , clientOpts := some opts, templateCfg := some tcfg, indexCfg := none
        , readCfg := none, writeCfg := none }
      | none =>
        if cfg.indexDaily = false then
          match ext.newIndexServiceErr with
          | some _ =>
            { outcome := .fatal "Failed to create indexer"
            , calls := [.awsNew, .elasticNew, .ensureTemplate, .newIndexService]
            , clientOpts := some opts, templateCfg := some tcfg
            , indexCfg := some (mkIndexCfg cfg)
            , readCfg := none, writeCfg := none }
          | none =>
            match ext.newWriteServiceErr with
            | some _ =>
              { outcome := .fatal "Unable to create elasticsearch adapter:"
              , calls := [.awsNew, .elasticNew, .ensureTemplate, .newIndexService
                         , .newReadService, .newWriteService]
              , clientOpts := some opts, templateCfg := some tcfg
              , indexCfg := some (mkIndexCfg cfg)
              , readCfg := some (mkReadCfg cfg), writeCfg := some (mkWriteCfg cfg) }
            | none =>
              { outcome := .served
              , calls := [.awsNew, .elasticNew, .ensureTemplate, .newIndexService
                         , .newReadService, .newWriteService, .adminListen, .serve
                         , .writeClose, .clientStop]
              , clientOpts := some opts, templateCfg := some tcfg
              , indexCfg := some (mkIndexCfg cfg)
              , readCfg := some (mkReadCfg cfg), writeCfg := some (mkWriteCfg cfg) }
        else
          match ext.newWriteServiceErr with
          | some _ =>
            { outcome := .fatal "Unable to create elasticsearch adapter:"
            , calls := [.awsNew, .elasticNew, .ensureTemplate, .newReadService
                       , .newWriteService]
            , clientOpts := some opts, templateCfg := some tcfg, indexCfg := none
            , readCfg := some (mkReadCfg cfg), writeCfg := some (mkWriteCfg cfg) }
          | none =>
            { outcome := .served
            , calls := [.awsNew, .elasticNew, .ensureTemplate, .newReadService
                       , .newWriteService, .adminListen, .serve, .writeClose, .clientStop]
            , clientOpts := some opts, templateCfg := some tcfg, indexCfg := none
            , readCfg := some (mkReadCfg cfg), writeCfg := some (mkWriteCfg cfg) }

/-- An oracle in which every external call succeeds. -/
def allOk : Ext :=
  { awsClientErr := none, elasticClientErr := none, ensureTemplateErr := none
  , newIndexServiceErr := none, newWriteServiceErr := none }

/-- The result of a run of `main` that reaches graceful.ListenAndServe and
completes: every service constructed from the one configuration, and the
call list ending with serve, the deferred writeSvc.Close, then
client.Stop. -/
def servedResult (cfg : Config) : RunResult :=
  { outcome := .served
  , calls :=
      if cfg.indexDaily then
        [.awsNew, .elasticNew, .ensureTemplate, .newReadService, .newWriteService
        , .adminListen, .serve, .writeClose, .clientStop]
      else
        [.awsNew, .elasticNew, .ensureTemplate, .newIndexService, .newReadService
        , .newWriteService, .adminListen, .serve, .writeClose, .clientStop]
  , clientOpts := some (mkClientOptions cfg)
  , templateCfg := some (mkTemplateCfg cfg)
  , indexCfg := if cfg.indexDaily then none else some (mkIndexCfg cfg)
  , readCfg := some (mkReadCfg cfg)
  , writeCfg := some (mkWriteCfg cfg) }

/-- Modelled from the spec: the query execution of the read service is not
under src (only its construction in main.go lines 98-102 is).  Per the
spec, the read path produces a store query scoped to the alias, bounded
by a configured maximum result-document count, and a query matching more
documents than the configured maximum returns exactly the maximum, not
more; so the number of documents returned for a query matching
`matching` documents is the smaller of `matching` and the cap. -/
def readResultCount (rcfg : ReadConfig) (matching : Int) : Int :=
  min matching rcfg.maxDocs

/-- The state of the write pipeline: whether the accumulator accepts new
samples, the current partially filled batch, the intake queue of
completed batches awaiting a worker, and the batches already handed off
to the store.  Samples are abstracted to their identity. -/
structure WriteState where
  accepting : Bool
  buffer : List Nat
  intake : List (List Nat)
  written : List (List Nat)
deriving DecidableEq, Repr

/-- Modelled from the spec: the body of WriteService.Close is not under
src (only its deferred call site at main.go line 117 is).  Per the spec,
on shutdown the accumulator stops accepting new samples, flushes its
current partial batch as a final best-effort write, and the worker pool
drains its intake queue before the process exits; an empty partial batch
is not flushed (an empty batch never triggers a flush). -/
def closeWrite (s : WriteState) : WriteState :=
  { accepting := false
  , buffer := []
  , intake := []
  , written := s.written ++ s.intake ++ (if s.buffer.isEmpty then [] else [s.buffer]) }

/-- The store-side state touched by template provisioning: the template
registered for the index naming pattern, if any. -/
structure TemplateStore where
  template : Option IndexTemplateConfig
deriving DecidableEq, Repr

/-- Modelled from the spec: the body of EnsureIndexTemplate is not under
src (only its call site at main.go lines 77-84 is).  Per the spec, the
index template (shard count, replica count, mapping/settings) is applied
at startup to any index matching the alias naming pattern and is
idempotent to apply repeatedly: applying it registers the template, and
re-applying identical settings produces no error and no state change. -/
def ensureIndexTemplate (tcfg : IndexTemplateConfig) (st : TemplateStore) :
    Except String TemplateStore :=
  match st with
  | _ => .ok { template := some tcfg }

/-- Every run of `main` in which the url check and every external call
succeed computes exactly the served result. -/
theorem runMain_eq_servedResult (cfg : Config) (ext : Ext)
    (hu : ¬ cfg.url = "") (h1 : ext.elasticClientErr = none)
    (h2 : ext.ensureTemplateErr = none)
    (h3 : cfg.indexDaily = false → ext.newIndexServiceErr = none)
    (h4 : ext.newWriteServiceErr = none) :
    runMain cfg ext = servedResult cfg := by
  cases hd : cfg.indexDaily <;>
    simp_all [runMain, servedResult]

/-- A run of `main` that reaches the served outcome passed the url check
and saw every fallible startup call succeed. -/
theorem runMain_served_inv (cfg : Config) (ext : Ext)
    (h : (runMain cfg ext).outcome = .served) :
    ¬ cfg.url = "" ∧ ext.elasticClientErr = none ∧ ext.ensureTemplateErr = none
      ∧ (cfg.indexDaily = false → ext.newIndexServiceErr = none)
      ∧ ext.newWriteServiceErr = none := by
  by_cases hu : cfg.url = "" <;>
  cases h1 : ext.elasticClientErr <;>
  cases h2 : ext.ensureTemplateErr <;>
  cases hd : cfg.indexDaily <;>
  cases h3 : ext.newIndexServiceErr <;>
  cases h4 : ext.newWriteServiceErr <;>
  simp_all [runMain]

/-- C1: if applying the index template, creating the index lifecycle
service (when not in daily mode), or creating the write service fails at
process start, the process aborts with log.Fatal and the listener on
:8000 is never started; hence the listener begins accepting requests only
if EnsureIndexTemplate, NewIndexService (when not in daily mode) and
NewWriteService all returned without error. -/
theorem startup_failure_aborts_and_blocks_serve (cfg : Config) (ext : Ext)
    (h : ¬ ext.ensureTemplateErr = none
        ∨ (cfg.indexDaily = false ∧ ¬ ext.newIndexServiceErr = none)
        ∨ ¬ ext.newWriteServiceErr = none) :
    (∃ m, (runMain cfg ext).outcome = .fatal m)
      ∧ Call.serve ∉ (runMain cfg ext).calls := by
  by_cases hu : cfg.url = "" <;>
  cases h1 : ext.elasticClientErr <;>
  cases h2 : ext.ensureTemplateErr <;>
  cases hd : cfg.indexDaily <;>
  cases h3 : ext.newIndexServiceErr <;>
  cases h4 : ext.newWriteServiceErr <;>
  simp_all [runMain]

/-- Witness for C1: with the template call failing on the default
configuration, the run aborts and never serves. -/
theorem startup_failure_aborts_and_blocks_serve_witness :
    (∃ m, (runMain defaultConfig { allOk with ensureTemplateErr := some "boom" }).outcome
        = .fatal m)
      ∧ Call.serve ∉ (runMain defaultConfig { allOk with ensureTemplateErr := some "boom" }).calls :=
  startup_failure_aborts_and_blocks_serve defaultConfig
    { allOk with ensureTemplateErr := some "boom" } (by simp [allOk])

/-- C2: in a completed run, the threshold-based index lifecycle service is
constructed if and only if es_index_daily is false; it carries the
rollover policy MaxAge, MaxDocs and MaxSize from the configuration, and
when daily mode is enabled no index service is constructed and the write
service is told Daily is true. -/
theorem index_service_iff_not_daily (cfg : Config) (ext : Ext)
    (h : (runMain cfg ext).outcome = .served) :
    (Call.newIndexService ∈ (runMain cfg ext).calls ↔ cfg.indexDaily = false)
      ∧ (runMain cfg ext).indexCfg
          = (if cfg.indexDaily then none else some
              { aliasName := cfg.indexAlias, maxAge := cfg.indexMaxAge
              , maxDocs := cfg.indexMaxDocs, maxSize := cfg.indexMaxSize })
      ∧ (runMain cfg ext).writeCfg = some (mkWriteCfg cfg)
      ∧ (mkWriteCfg cfg).daily = cfg.indexDaily := by
  obtain ⟨hu, h1, h2, h3, h4⟩ := runMain_served_inv cfg ext h
  rw [runMain_eq_servedResult cfg ext hu h1 h2 h3 h4]
  cases hd : cfg.indexDaily <;>
    simp_all [servedResult, mkIndexCfg, mkWriteCfg]

/-- Witness for C2 at a daily-mode configuration with every call
succeeding. -/
theorem index_service_iff_not_daily_witness :
    (Call.newIndexService
        ∈ (runMain { defaultConfig with indexDaily := true } allOk).calls
      ↔ { defaultConfig with indexDaily := true }.indexDaily = false)
      ∧ (runMain { defaultConfig with indexDaily := true } allOk).indexCfg
          = (if { defaultConfig with indexDaily := true }.indexDaily then none else some
              { aliasName := { defaultConfig with indexDaily := true }.indexAlias
              , maxAge := { defaultConfig with indexDaily := true }.indexMaxAge
              , maxDocs := { defaultConfig with indexDaily := true }.indexMaxDocs
              , maxSize := { defaultConfig with indexDaily := true }.indexMaxSize })
      ∧ (runMain { defaultConfig with indexDaily := true } allOk).writeCfg
          = some (mkWriteCfg { defaultConfig with indexDaily := true })
      ∧ (mkWriteCfg { defaultConfig with indexDaily := true }).daily
          = { defaultConfig with indexDaily := true }.indexDaily :=
  index_service_iff_not_daily { defaultConfig with indexDaily := true } allOk (by decide)

/-- C3: in a completed run, the template provisioner, the index lifecycle
service (when constructed), the read service and the write service are
all configured with the one identical alias string es_alias; none of the
construction records holds a physical index name, only the alias. -/
theorem all_components_share_alias (cfg : Config) (ext : Ext)
    (h : (runMain cfg ext).outcome = .served) :
    (∀ tcfg, (runMain cfg ext).templateCfg = some tcfg → tcfg.aliasName = cfg.indexAlias)
      ∧ (∀ icfg, (runMain cfg ext).indexCfg = some icfg → icfg.aliasName = cfg.indexAlias)
      ∧ (∀ rcfg, (runMain cfg ext).readCfg = some rcfg → rcfg.aliasName = cfg.indexAlias)
      ∧ (∀ wcfg, (runMain cfg ext).writeCfg = some wcfg → wcfg.aliasName = cfg.indexAlias) := by
  obtain ⟨hu, h1, h2, h3, h4⟩ := runMain_served_inv cfg ext h
  rw [runMain_eq_servedResult cfg ext hu h1 h2 h3 h4]
  cases hd : cfg.indexDaily <;>
    simp_all [servedResult, mkTemplateCfg, mkIndexCfg, mkReadCfg, mkWriteCfg]

/-- Witness for C3 at the default configuration with every call
succeeding. -/
theorem all_components_share_alias_witness :
    (∀ tcfg, (runMain defaultConfig allOk).templateCfg = some tcfg →
        tcfg.aliasName = defaultConfig.indexAlias)
      ∧ (∀ icfg, (runMain defaultConfig allOk).indexCfg = some icfg →
          icfg.aliasName = defaultConfig.indexAlias)
      ∧ (∀ rcfg, (runMain defaultConfig allOk).readCfg = some rcfg →
          rcfg.aliasName = defaultConfig.indexAlias)
      ∧ (∀ wcfg, (runMain defaultConfig allOk).writeCfg = some wcfg →
          wcfg.aliasName = defaultConfig.indexAlias) :=
  all_components_share_alias defaultConfig allOk (by decide)

/-- C4: in a completed run, the read service is constructed with exactly
the alias name and the es_search_max_docs maximum, and a query matching
more documents than that maximum returns exactly the maximum, not
more. -/
theorem read_service_alias_scoped_and_capped (cfg : Config) (ext : Ext)
    (h : (runMain cfg ext).outcome = .served) :
    (runMain cfg ext).readCfg
        = some { aliasName := cfg.indexAlias, maxDocs := cfg.searchMaxDocs }
      ∧ (∀ matching : Int, cfg.searchMaxDocs < matching →
          readResultCount (mkReadCfg cfg) matching = cfg.searchMaxDocs)
      ∧ (∀ matching : Int, readResultCount (mkReadCfg cfg) matching ≤ cfg.searchMaxDocs) := by
  obtain ⟨hu, h1, h2, h3, h4⟩ := runMain_served_inv cfg ext h
  rw [runMain_eq_servedResult cfg ext hu h1 h2 h3 h4]
  refine ⟨by simp [servedResult, mkReadCfg], fun m hm => ?_, fun m => ?_⟩
  · exact min_eq_right hm.le
  · exact min_le_right _ _

/-- Witness for C4 at the default configuration with every call
succeeding. -/
theorem read_service_alias_scoped_and_capped_witness :
    (runMain defaultConfig allOk).readCfg
        = some { aliasName := defaultConfig.indexAlias
               , maxDocs := defaultConfig.searchMaxDocs }
      ∧ (∀ matching : Int, defaultConfig.searchMaxDocs < matching →
          readResultCount (mkReadCfg defaultConfig) matching = defaultConfig.searchMaxDocs)
      ∧ (∀ matching : Int,
          readResultCount (mkReadCfg defaultConfig) matching ≤ defaultConfig.searchMaxDocs) :=
  read_service_alias_scoped_and_capped defaultConfig allOk (by decide)

/-- C5: every completed run ends with graceful server termination
followed by the deferred writeSvc.Close and then client.Stop before main
returns, and closing the write pipeline stops the accumulator from
accepting new samples, flushes the current partial batch, and drains the
intake queue with no queued batch lost. -/
theorem shutdown_flushes_and_drains_write_pipeline (cfg : Config) (ext : Ext)
    (h : (runMain cfg ext).outcome = .served) :
    (∃ pre, (runMain cfg ext).calls
        = pre ++ [Call.serve, Call.writeClose, Call.clientStop])
      ∧ (∀ s : WriteState,
          (closeWrite s).accepting = false
            ∧ (closeWrite s).intake = []
            ∧ (¬ s.buffer = [] → s.buffer ∈ (closeWrite s).written)
            ∧ (∀ b ∈ s.intake, b ∈ (closeWrite s).written)) := by
  obtain ⟨hu, h1, h2, h3, h4⟩ := runMain_served_inv cfg ext h
  rw [runMain_eq_servedResult cfg ext hu h1 h2 h3 h4]
  constructor
  · cases hd : cfg.indexDaily <;>
      simp [servedResult, hd] <;>
      [exact ⟨[.awsNew, .elasticNew, .ensureTemplate, .newIndexService, .newReadService
              , .newWriteService, .adminListen], rfl⟩;
       exact ⟨[.awsNew, .elasticNew, .ensureTemplate, .newReadService
              , .newWriteService, .adminListen], rfl⟩]
  · intro s
    refine ⟨rfl, rfl, fun hb => ?_, fun b hb => ?_⟩
    · simp [closeWrite, hb]
    · simp [closeWrite]
      exact Or.inr (Or.inl hb)

/-- Witness for C5 at the default configuration with every call
succeeding. -/
theorem shutdown_flushes_and_drains_write_pipeline_witness :
    (∃ pre, (runMain defaultConfig allOk).calls
        = pre ++ [Call.serve, Call.writeClose, Call.clientStop])
      ∧ (∀ s : WriteState,
          (closeWrite s).accepting = false
            ∧ (closeWrite s).intake = []
            ∧ (¬ s.buffer = [] → s.buffer ∈ (closeWrite s).written)
            ∧ (∀ b ∈ s.intake, b ∈ (closeWrite s).written)) :=
  shutdown_flushes_and_drains_write_pipeline defaultConfig allOk (by decide)

/-- The state change one template application performs on the store: the
successful result of ensureIndexTemplate as a state transformer. -/
def applyTemplate (tcfg : IndexTemplateConfig) : TemplateStore → TemplateStore :=
  fun _ => { template := some tcfg }

/-- C6: applying the index template is idempotent: after one application,
re-applying EnsureIndexTemplate with identical settings produces no error
and no state change, and any further repetition count of the state change
leaves the store unchanged. -/
theorem ensure_index_template_idempotent (tcfg : IndexTemplateConfig)
    (st st1 : TemplateStore) (h : ensureIndexTemplate tcfg st = .ok st1) :
    ensureIndexTemplate tcfg st1 = .ok st1
      ∧ ∀ n : Nat, (applyTemplate tcfg)^[n] st1 = st1 := by
  have hst : st1 = { template := some tcfg } := by
    simpa [ensureIndexTemplate] using h.symm
  subst hst
  refine ⟨rfl, fun n => ?_⟩
  induction n with
  | zero => rfl
  | succ k ih =>
    rw [Function.iterate_succ_apply]
    simpa [applyTemplate] using ih

/-- Witness for C6 at concrete template settings. -/
theorem ensure_index_template_idempotent_witness :
    ensureIndexTemplate { aliasName := "prom-metrics", shards := 5, replicas := 1 }
        { template := some { aliasName := "prom-metrics", shards := 5, replicas := 1 } }
      = .ok { template := some { aliasName := "prom-metrics", shards := 5, replicas := 1 } }
      ∧ ∀ n : Nat,
        (applyTemplate { aliasName := "prom-metrics", shards := 5, replicas := 1 })^[n]
          { template := some { aliasName := "prom-metrics", shards := 5, replicas := 1 } }
        = { template := some { aliasName := "prom-metrics", shards := 5, replicas := 1 } } :=
  ensure_index_template_idempotent
    { aliasName := "prom-metrics", shards := 5, replicas := 1 }
    { template := none }
    { template := some { aliasName := "prom-metrics", shards := 5, replicas := 1 } }
    rfl

/-- C7: in a completed run every configuration option is routed to the
component that consumes it: write batch max age, max docs, max size,
worker count and the stats toggle to the write service together with the
daily toggle; index rollover max age, max docs and max size to the index
service (when not in daily mode); shard and replica counts to the
template; the read result cap to the read service; and the url and
sniffing toggle to the store client. -/
theorem config_options_routed (cfg : Config) (ext : Ext)
    (h : (runMain cfg ext).outcome = .served) :
    (runMain cfg ext).writeCfg = some
        { aliasName := cfg.indexAlias, daily := cfg.indexDaily
        , maxAge := cfg.batchMaxAge, maxDocs := cfg.batchMaxDocs
        , maxSize := cfg.batchMaxSize, workers := cfg.workers
        , stats := cfg.statsEnabled }
      ∧ (cfg.indexDaily = false → (runMain cfg ext).indexCfg = some
          { aliasName := cfg.indexAlias, maxAge := cfg.indexMaxAge
          , maxDocs := cfg.indexMaxDocs, maxSize := cfg.indexMaxSize })
      ∧ (runMain cfg ext).templateCfg = some
          { aliasName := cfg.indexAlias, shards := cfg.indexShards
          , replicas := cfg.indexReplicas }
      ∧ (runMain cfg ext).readCfg = some
          { aliasName := cfg.indexAlias, maxDocs := cfg.searchMaxDocs }
      ∧ (runMain cfg ext).clientOpts = some
          { url := cfg.url, scheme := "https", sniff := cfg.sniffEnabled } := by
  obtain ⟨hu, h1, h2, h3, h4⟩ := runMain_served_inv cfg ext h
  rw [runMain_eq_servedResult cfg ext hu h1 h2 h3 h4]
  cases hd : cfg.indexDaily <;>
    simp_all [servedResult, mkClientOptions, mkTemplateCfg, mkIndexCfg, mkReadCfg, mkWriteCfg]

/-- Witness for C7 at the default configuration with every call
succeeding. -/
theorem config_options_routed_witness :
    (runMain defaultConfig allOk).writeCfg = some
        { aliasName := defaultConfig.indexAlias, daily := defaultConfig.indexDaily
        , maxAge := defaultConfig.batchMaxAge, maxDocs := defaultConfig.batchMaxDocs
        , maxSize := defaultConfig.batchMaxSize, workers := defaultConfig.workers
        , stats := defaultConfig.statsEnabled }
      ∧ (defaultConfig.indexDaily = false → (runMain defaultConfig allOk).indexCfg = some
          { aliasName := defaultConfig.indexAlias, maxAge := defaultConfig.indexMaxAge
          , maxDocs := defaultConfig.indexMaxDocs, maxSize := defaultConfig.indexMaxSize })
      ∧ (runMain defaultConfig allOk).templateCfg = some
          { aliasName := defaultConfig.indexAlias, shards := defaultConfig.indexShards
          , replicas := defaultConfig.indexReplicas }
      ∧ (runMain defaultConfig allOk).readCfg = some
          { aliasName := defaultConfig.indexAlias, maxDocs := defaultConfig.searchMaxDocs }
      ∧ (runMain defaultConfig allOk).clientOpts = some
          { url := defaultConfig.url, scheme := "https"
          , sniff := defaultConfig.sniffEnabled } :=
  config_options_routed defaultConfig allOk (by decide)

/-- C8: the error returned when constructing the AWS request-signing HTTP
client is never inspected (the err binding is overwritten by the
subsequent elastic.NewClient binding): the run is identical whether that
constructor fails or succeeds, and with every other call succeeding a run
whose signing-client construction fails still proceeds to serve. -/
theorem aws_signing_client_error_ignored (cfg : Config) (e : String)
    (hu : ¬ cfg.url = "") :
    (∀ ext : Ext, runMain cfg { ext with awsClientErr := some e }
        = runMain cfg { ext with awsClientErr := none })
      ∧ (runMain cfg { allOk with awsClientErr := some e }).outcome = .served := by
  constructor
  · intro ext
    rfl
  · rw [runMain_eq_servedResult cfg { allOk with awsClientErr := some e } hu rfl rfl
      (fun _ => rfl) rfl]
    rfl

/-- Witness for C8 at the default configuration. -/
theorem aws_signing_client_error_ignored_witness :
    (∀ ext : Ext, runMain defaultConfig { ext with awsClientErr := some "no credentials" }
        = runMain defaultConfig { ext with awsClientErr := none })
      ∧ (runMain defaultConfig { allOk with awsClientErr := some "no credentials" }).outcome
          = .served :=
  aws_signing_client_error_ignored defaultConfig "no credentials" (by decide)

/-- C9: the store client URL scheme is unconditionally the literal
"https" for every configuration, while the default es_url is the
plain-http "http://localhost:9200". -/
theorem client_scheme_forced_https (cfg : Config) (ext : Ext) :
    (mkClientOptions cfg).scheme = "https"
      ∧ (∀ co, (runMain cfg ext).clientOpts = some co → co.scheme = "https")
      ∧ defaultConfig.url = "http://localhost:9200" := by
  refine ⟨rfl, fun co hco => ?_, rfl⟩
  obtain ⟨cu, cs, cn⟩ := co
  by_cases hu : cfg.url = "" <;>
  cases h1 : ext.elasticClientErr <;>
  cases h2 : ext.ensureTemplateErr <;>
  cases hd : cfg.indexDaily <;>
  cases h3 : ext.newIndexServiceErr <;>
  cases h4 : ext.newWriteServiceErr <;>
  simp_all [runMain, mkClientOptions]

/-- Witness for C9 at the default configuration with every call
succeeding. -/
theorem client_scheme_forced_https_witness :
    (mkClientOptions defaultConfig).scheme = "https"
      ∧ (∀ co, (runMain defaultConfig allOk).clientOpts = some co → co.scheme = "https")
      ∧ defaultConfig.url = "http://localhost:9200" :=
  client_scheme_forced_https defaultConfig allOk

/-- C10: when the es_url option resolves to the empty string, the run
aborts with the fatal message "missing url" and performs no external call
at all: no store connection, no template application, no service
construction. -/
theorem empty_url_fatal_before_any_call (cfg : Config) (ext : Ext)
    (h : cfg.url = "") :
    (runMain cfg ext).outcome = .fatal "missing url"
      ∧ (runMain cfg ext).calls = [] := by
  simp [runMain, h]

/-- Witness for C10 at the default configuration with the url overridden
to the empty string. -/
theorem empty_url_fatal_before_any_call_witness :
    (runMain { defaultConfig with url := "" } allOk).outcome = .fatal "missing url"
      ∧ (runMain { defaultConfig with url := "" } allOk).calls = [] :=
  empty_url_fatal_before_any_call { defaultConfig with url := "" } allOk rfl

end PromEsAdapter
